import Mathlib

/-!
# ClassLog `verify_login` : credential checker

Shallow embedding of `Backend/node/verify_login.cpp`.

* A command-line argument (`char*`, converted to `std::string`) is a `String`;
  `==` of `std::string` against a literal is equality of the character
  sequences, hence `=` on `String`.
* `argv` is the whole argument vector, program name first, and `argc` is its
  length.
* Standard output is the sequence of operands of the executed
  `cout << s << endl;` statements; each of them puts `s` and then a newline
  on the stream.
* The value returned by `main` is the exit status of the process.
-/

namespace VerifyLogin

/-- Observable outcome of one run of the program. -/
structure Run where
  /-- Operands of the executed `cout << s << endl;` statements, in order. -/
  lines : List String
  /-- Value returned by `main`. -/
  status : Int
  deriving DecidableEq

/-- Statement `cout << s << endl;` acting on the output performed so far. -/
def coutEndl (out : List String) (s : String) : List String :=
  out ++ [s]

/-- Text present on standard output after the run: every operand followed by
the newline written by `endl`. -/
def Run.stdout (r : Run) : String :=
  String.join (r.lines.map fun s => s ++ "\n")

/-- Arguments after the program name (`argv[1]`, `argv[2]`, ...). -/
def userArgs (argv : List String) : List String :=
  argv.tail

/-- Function `main` of `verify_login.cpp`; `argc` is `argv.length`. -/
def main (argv : List String) : Run :=
  let argc := argv.length
  if argc ≠ 4 then
    { lines := coutEndl [] "invalid_args", status := 1 }
  else
    let role := argv.getD 1 ""
    let emailOrId := argv.getD 2 ""
    let password := argv.getD 3 ""
    let out :=
      if role = "teacher" then
        if emailOrId = "teacher@school.edu" ∧ password = "password123" then
          coutEndl [] "teacher_success|T001|John Doe"
        else
          coutEndl [] "teacher_failure"
      else if role = "student" then
        if emailOrId = "STU001" ∧ password = "student123" then
          coutEndl [] "student_success|STU001|Alice Johnson"
        else
          coutEndl [] "student_failure"
      else
        coutEndl [] "invalid_role"
    { lines := out, status := 0 }

/-- The string `s` begins with the string `p`. -/
def beginsWith (p s : String) : Prop :=
  p.data <+: s.data

instance (p s : String) : Decidable (beginsWith p s) :=
  inferInstanceAs (Decidable (p.data <+: s.data))

/-- The five result shapes of the three-argument table. -/
def fiveShapes : List String :=
  ["teacher_success|T001|John Doe", "teacher_failure",
   "student_success|STU001|Alice Johnson", "student_failure", "invalid_role"]

/-! ## Evaluation on the documented examples -/

example : main ["verify_login", "teacher", "teacher@school.edu", "password123"]
    = ⟨["teacher_success|T001|John Doe"], 0⟩ := by decide
example : main ["verify_login", "teacher", "teacher@school.edu", "wrongpass"]
    = ⟨["teacher_failure"], 0⟩ := by decide
example : main ["verify_login", "student", "STU001", "student123"]
    = ⟨["student_success|STU001|Alice Johnson"], 0⟩ := by decide
example : main ["verify_login", "student", "wrong", "student123"]
    = ⟨["student_failure"], 0⟩ := by decide
example : main ["verify_login", "admin", "x", "y"] = ⟨["invalid_role"], 0⟩ := by decide
example : main ["verify_login"] = ⟨["invalid_args"], 1⟩ := by decide
example : (main ["verify_login"]).stdout = "invalid_args\n" := by decide

/-! ## Shared lemmas -/

/-- With up to three or at least five entries in `argv` the guard `argc != 4` fires. -/
theorem main_wrong_count (argv : List String) (h : argv.length ≠ 4) :
    main argv = ⟨["invalid_args"], 1⟩ := by
  simp [main, coutEndl, h]

/-- With four entries in `argv` the run is decided by the branch on the role. -/
theorem main_four (prog role id pw : String) :
    main [prog, role, id, pw] =
      ⟨[if role = "teacher" then
          (if id = "teacher@school.edu" ∧ pw = "password123" then
            "teacher_success|T001|John Doe" else "teacher_failure")
        else if role = "student" then
          (if id = "STU001" ∧ pw = "student123" then
            "student_success|STU001|Alice Johnson" else "student_failure")
        else "invalid_role"], 0⟩ := by
  simp only [main, coutEndl, List.length_cons, List.length_nil, List.getD_cons_succ,
    List.getD_cons_zero, List.nil_append]
  split_ifs <;> simp_all

/-- An argument vector of length four is a program name and three arguments. -/
theorem argv_of_length_four (argv : List String) (h : argv.length = 4) :
    ∃ prog role id pw, argv = [prog, role, id, pw] := by
  match argv, h with
  | [a, b, c, d], _ => exact ⟨a, b, c, d, rfl⟩

/-- Three user arguments means `argc = 4`. -/
theorem userArgs_length (argv : List String) :
    (userArgs argv).length = 3 ↔ argv.length = 4 := by
  cases argv <;> simp [userArgs]

/-- Standard output of a run that executed one output statement. -/
theorem stdout_single (s : String) (n : Int) :
    (Run.mk [s] n).stdout = s ++ "\n" := by
  simp [Run.stdout, String.join]

/-! ## Claims -/

/-- C1: for role `teacher` with exactly three user arguments, the single line
printed is `teacher_success|T001|John Doe` when the identifier is
`teacher@school.edu` and the password is `password123`, and `teacher_failure`
otherwise; the success line is printed if and only if both match; standard
output is that line followed by a newline; the exit status is 0. -/
theorem C1_teacher_login (prog id pw : String) :
    (main [prog, "teacher", id, pw]).lines =
        [if id = "teacher@school.edu" ∧ pw = "password123"
          then "teacher_success|T001|John Doe" else "teacher_failure"]
      ∧ (main [prog, "teacher", id, pw]).stdout =
        (if id = "teacher@school.edu" ∧ pw = "password123"
          then "teacher_success|T001|John Doe\n" else "teacher_failure\n")
      ∧ ((main [prog, "teacher", id, pw]).lines = ["teacher_success|T001|John Doe"]
          ↔ id = "teacher@school.edu" ∧ pw = "password123")
      ∧ ((main [prog, "teacher", id, pw]).lines = ["teacher_failure"]
          ↔ ¬ (id = "teacher@school.edu" ∧ pw = "password123"))
      ∧ (main [prog, "teacher", id, pw]).status = 0 := by
  have hm : main [prog, "teacher", id, pw] =
      ⟨[if id = "teacher@school.edu" ∧ pw = "password123"
          then "teacher_success|T001|John Doe" else "teacher_failure"], 0⟩ := by
    rw [main_four, if_pos rfl]
  rw [hm, stdout_single]
  by_cases h : id = "teacher@school.edu" ∧ pw = "password123"
  · simp [h]
  · simp [h]

/-- C2: for role `student` with exactly three user arguments, the single line
printed is `student_success|STU001|Alice Johnson` when the identifier is
`STU001` and the password is `student123`, and `student_failure` otherwise;
the success line is printed if and only if both match; standard output is
that line followed by a newline; the exit status is 0. -/
theorem C2_student_login (prog id pw : String) :
    (main [prog, "student", id, pw]).lines =
        [if id = "STU001" ∧ pw = "student123"
          then "student_success|STU001|Alice Johnson" else "student_failure"]
      ∧ (main [prog, "student", id, pw]).stdout =
        (if id = "STU001" ∧ pw = "student123"
          then "student_success|STU001|Alice Johnson\n" else "student_failure\n")
      ∧ ((main [prog, "student", id, pw]).lines = ["student_success|STU001|Alice Johnson"]
          ↔ id = "STU001" ∧ pw = "student123")
      ∧ ((main [prog, "student", id, pw]).lines = ["student_failure"]
          ↔ ¬ (id = "STU001" ∧ pw = "student123"))
      ∧ (main [prog, "student", id, pw]).status = 0 := by
  have hm : main [prog, "student", id, pw] =
      ⟨[if id = "STU001" ∧ pw = "student123"
          then "student_success|STU001|Alice Johnson" else "student_failure"], 0⟩ := by
    rw [main_four, if_neg (by decide), if_pos rfl]
  rw [hm, stdout_single]
  by_cases h : id = "STU001" ∧ pw = "student123"
  · simp [h]
  · simp [h]

/-- C3: when the number of user arguments is not three, the run prints the
single line `invalid_args` and exits with status 1, whatever the arguments
contain. -/
theorem C3_invalid_args (argv : List String) (h : (userArgs argv).length ≠ 3) :
    (main argv).lines = ["invalid_args"]
      ∧ (main argv).stdout = "invalid_args\n"
      ∧ (main argv).status = 1 := by
  have h4 : argv.length ≠ 4 := fun e => h ((userArgs_length argv).mpr e)
  rw [main_wrong_count argv h4]
  decide

/-- C3 at four user arguments whose first three are the valid teacher login. -/
theorem C3_invalid_args_witness :
    (userArgs ["verify_login", "teacher", "teacher@school.edu", "password123", "x"]).length ≠ 3
      ∧ (main ["verify_login", "teacher", "teacher@school.edu", "password123", "x"]).lines
          = ["invalid_args"]
      ∧ (main ["verify_login", "teacher", "teacher@school.edu", "password123", "x"]).stdout
          = "invalid_args\n"
      ∧ (main ["verify_login", "teacher", "teacher@school.edu", "password123", "x"]).status = 1 :=
  ⟨by decide,
   C3_invalid_args ["verify_login", "teacher", "teacher@school.edu", "password123", "x"]
     (by decide)⟩

/-- C4: with exactly three user arguments and a role that is neither `teacher`
nor `student`, the run prints the single line `invalid_role` and exits with
status 0, for every identifier and password. -/
theorem C4_invalid_role (prog role id pw : String)
    (ht : role ≠ "teacher") (hs : role ≠ "student") :
    (main [prog, role, id, pw]).lines = ["invalid_role"]
      ∧ (main [prog, role, id, pw]).stdout = "invalid_role\n"
      ∧ (main [prog, role, id, pw]).status = 0 := by
  rw [main_four, stdout_single, if_neg ht, if_neg hs]
  decide

/-- C4 at role `Teacher` with the teacher credentials. -/
theorem C4_invalid_role_witness :
    "Teacher" ≠ "teacher" ∧ "Teacher" ≠ "student"
      ∧ (main ["verify_login", "Teacher", "teacher@school.edu", "password123"]).lines
          = ["invalid_role"]
      ∧ (main ["verify_login", "Teacher", "teacher@school.edu", "password123"]).stdout
          = "invalid_role\n"
      ∧ (main ["verify_login", "Teacher", "teacher@school.edu", "password123"]).status = 0 :=
  ⟨by decide, by decide,
   C4_invalid_role "verify_login" "Teacher" "teacher@school.edu" "password123"
     (by decide) (by decide)⟩

/-- C5: the exit status is non-zero if and only if the number of user
arguments is not three; it is 0 with three user arguments and 1 otherwise. -/
theorem C5_exit_status (argv : List String) :
    ((main argv).status ≠ 0 ↔ (userArgs argv).length ≠ 3)
      ∧ (main argv).status = (if (userArgs argv).length = 3 then 0 else 1) := by
  by_cases h : argv.length = 4
  · obtain ⟨prog, role, id, pw, rfl⟩ := argv_of_length_four argv h
    rw [main_four]
    simp [userArgs]
  · have hu : (userArgs argv).length ≠ 3 := fun e => h ((userArgs_length argv).mp e)
    rw [main_wrong_count argv h]
    simp [hu]

/-- C6, as stated, fails: with no user argument the run prints `invalid_args`,
which is none of the five shapes of the three-argument table, neither as the
printed line nor as the text on standard output. -/
theorem C6_five_shapes_counterexample :
    (main ["verify_login"]).lines = ["invalid_args"]
      ∧ ∀ s ∈ fiveShapes,
          (main ["verify_login"]).lines ≠ [s] ∧ (main ["verify_login"]).stdout ≠ s ++ "\n" := by
  decide

/-- C6, amended: every run prints exactly one line, which is `invalid_args` or
one of the five shapes of the table; it is one of the five shapes exactly when
the number of user arguments is three, and `invalid_args` exactly when it is
not. -/
theorem C6_six_shapes (argv : List String) :
    (∃ s ∈ "invalid_args" :: fiveShapes, (main argv).lines = [s])
      ∧ ((∃ s ∈ fiveShapes, (main argv).lines = [s]) ↔ (userArgs argv).length = 3)
      ∧ ((main argv).lines = ["invalid_args"] ↔ (userArgs argv).length ≠ 3) := by
  by_cases h : argv.length = 4
  · obtain ⟨prog, role, id, pw, rfl⟩ := argv_of_length_four argv h
    rw [main_four]
    split_ifs <;> simp [userArgs, fiveShapes]
  · have hu : (userArgs argv).length ≠ 3 := fun e => h ((userArgs_length argv).mp e)
    rw [main_wrong_count argv h]
    simp [hu, fiveShapes]

/-- C7: every run executes exactly one output statement; its operand is a
non-empty string without a newline character, and standard output is that
string followed by one newline, so it holds exactly one newline character. -/
theorem C7_one_line (argv : List String) :
    (∃ s, s ≠ "" ∧ '\n' ∉ s.data ∧ (main argv).lines = [s]
        ∧ (main argv).stdout = s ++ "\n")
      ∧ (main argv).lines.length = 1
      ∧ (main argv).stdout.data.count '\n' = 1 := by
  by_cases h : argv.length = 4
  · obtain ⟨prog, role, id, pw, rfl⟩ := argv_of_length_four argv h
    rw [main_four]
    split_ifs
    · exact ⟨⟨"teacher_success|T001|John Doe", by decide, by decide, rfl, by decide⟩,
        rfl, by decide⟩
    · exact ⟨⟨"teacher_failure", by decide, by decide, rfl, by decide⟩, rfl, by decide⟩
    · exact ⟨⟨"student_success|STU001|Alice Johnson", by decide, by decide, rfl, by decide⟩,
        rfl, by decide⟩
    · exact ⟨⟨"student_failure", by decide, by decide, rfl, by decide⟩, rfl, by decide⟩
    · exact ⟨⟨"invalid_role", by decide, by decide, rfl, by decide⟩, rfl, by decide⟩
  · rw [main_wrong_count argv h]
    exact ⟨⟨"invalid_args", by decide, by decide, rfl, by decide⟩, rfl, by decide⟩

/-- C8: standard output begins with `teacher_success` or `student_success` if
and only if the user arguments are exactly `teacher`, `teacher@school.edu`,
`password123` or exactly `student`, `STU001`, `student123`; the teacher pair
under role `student` prints `student_failure` and the student pair under role
`teacher` prints `teacher_failure`. -/
theorem C8_no_cross_role (argv : List String) (prog : String) :
    ((beginsWith "teacher_success" (main argv).stdout
          ∨ beginsWith "student_success" (main argv).stdout)
        ↔ (userArgs argv = ["teacher", "teacher@school.edu", "password123"]
          ∨ userArgs argv = ["student", "STU001", "student123"]))
      ∧ main [prog, "student", "teacher@school.edu", "password123"] = ⟨["student_failure"], 0⟩
      ∧ main [prog, "teacher", "STU001", "student123"] = ⟨["teacher_failure"], 0⟩ := by
  refine ⟨?_, by rw [main_four]; decide, by rw [main_four]; decide⟩
  by_cases h : argv.length = 4
  · obtain ⟨prog, role, id, pw, rfl⟩ := argv_of_length_four argv h
    rw [main_four]
    have e1 : beginsWith "teacher_success" (Run.mk ["teacher_success|T001|John Doe"] 0).stdout :=
      by decide
    have e2 : beginsWith "student_success"
        (Run.mk ["student_success|STU001|Alice Johnson"] 0).stdout := by decide
    have n1 : ¬ (beginsWith "teacher_success" (Run.mk ["teacher_failure"] 0).stdout
        ∨ beginsWith "student_success" (Run.mk ["teacher_failure"] 0).stdout) := by decide
    have n2 : ¬ (beginsWith "teacher_success" (Run.mk ["student_failure"] 0).stdout
        ∨ beginsWith "student_success" (Run.mk ["student_failure"] 0).stdout) := by decide
    have n3 : ¬ (beginsWith "teacher_success" (Run.mk ["invalid_role"] 0).stdout
        ∨ beginsWith "student_success" (Run.mk ["invalid_role"] 0).stdout) := by decide
    simp only [userArgs, List.tail_cons, List.cons.injEq, and_true]
    split_ifs with hr hc hr2 hc2
    · exact ⟨fun _ => Or.inl ⟨hr, hc⟩, fun _ => Or.inl e1⟩
    · refine ⟨fun a => absurd a n1, ?_⟩
      rintro (⟨_, a, b⟩ | ⟨a, _⟩)
      · exact absurd ⟨a, b⟩ hc
      · exact absurd (hr.symm.trans a) (by decide)
    · exact ⟨fun _ => Or.inr ⟨hr2, hc2⟩, fun _ => Or.inr e2⟩
    · refine ⟨fun a => absurd a n2, ?_⟩
      rintro (⟨a, _⟩ | ⟨_, a, b⟩)
      · exact absurd a hr
      · exact absurd ⟨a, b⟩ hc2
    · refine ⟨fun a => absurd a n3, ?_⟩
      rintro (⟨a, _⟩ | ⟨a, _⟩)
      · exact absurd a hr
      · exact absurd a hr2
  · have hu : (userArgs argv).length ≠ 3 := fun e => h ((userArgs_length argv).mp e)
    rw [main_wrong_count argv h]
    have n0 : ¬ (beginsWith "teacher_success" (Run.mk ["invalid_args"] 1).stdout
        ∨ beginsWith "student_success" (Run.mk ["invalid_args"] 1).stdout) := by decide
    refine ⟨fun a => absurd a n0, ?_⟩
    rintro (a | a) <;> exact absurd (by rw [a]; rfl) hu

/-- C9: for role `teacher`, and likewise for role `student`, any two runs whose
identifier and password are not both the fixed ones of that role print the
same line, leave the same text on standard output and exit with the same
status, whichever of the two fields was wrong. -/
theorem C9_failure_uniform (prog₁ prog₂ role id₁ pw₁ id₂ pw₂ : String)
    (h : (role = "teacher"
            ∧ ¬ (id₁ = "teacher@school.edu" ∧ pw₁ = "password123")
            ∧ ¬ (id₂ = "teacher@school.edu" ∧ pw₂ = "password123"))
          ∨ (role = "student"
            ∧ ¬ (id₁ = "STU001" ∧ pw₁ = "student123")
            ∧ ¬ (id₂ = "STU001" ∧ pw₂ = "student123"))) :
    (main [prog₁, role, id₁, pw₁]).lines = (main [prog₂, role, id₂, pw₂]).lines
      ∧ (main [prog₁, role, id₁, pw₁]).stdout = (main [prog₂, role, id₂, pw₂]).stdout
      ∧ (main [prog₁, role, id₁, pw₁]).status = (main [prog₂, role, id₂, pw₂]).status := by
  have e : main [prog₁, role, id₁, pw₁] = main [prog₂, role, id₂, pw₂] := by
    rw [main_four, main_four]
    rcases h with ⟨hr, h1, h2⟩ | ⟨hr, h1, h2⟩
    · rw [if_pos hr, if_pos hr, if_neg h1, if_neg h2]
    · have ht : role ≠ "teacher" := by rw [hr]; decide
      rw [if_neg ht, if_neg ht, if_pos hr, if_pos hr, if_neg h1, if_neg h2]
  rw [e]
  exact ⟨rfl, rfl, rfl⟩

/-- C9 at role `teacher`: a wrong password against a wrong identifier. -/
theorem C9_failure_uniform_witness :
    (main ["verify_login", "teacher", "teacher@school.edu", "wrongpass"]).lines
        = (main ["verify_login", "teacher", "nobody", "password123"]).lines
      ∧ (main ["verify_login", "teacher", "teacher@school.edu", "wrongpass"]).stdout
        = (main ["verify_login", "teacher", "nobody", "password123"]).stdout
      ∧ (main ["verify_login", "teacher", "teacher@school.edu", "wrongpass"]).status
        = (main ["verify_login", "teacher", "nobody", "password123"]).status :=
  C9_failure_uniform "verify_login" "verify_login" "teacher"
    "teacher@school.edu" "wrongpass" "nobody" "password123"
    (Or.inl ⟨rfl, by decide, by decide⟩)

end VerifyLogin
